import Mathlib

/-!
Shallow embedding of the candidate-job fit computation subsystem of the
mrnoblebackend repository: the result cache (`app/services/cache.py`) and the
fit-scoring engine (`app/services/ai_service.py`, `app/services/match.py`).

Modelling conventions:
* Python runtime values that can be cached are modelled by `PyVal`; the Python
  value `None` is the constructor `PyVal.none`, so a function that "returns
  None" and a cache miss produce the same value, exactly as in Python.
* Python floats are modelled as exact rationals (`ℚ`).
* Exceptions are modelled with `Except PyErr`; a `try/except` block that
  swallows the exception becomes a `match` on the `Except` value.
* The Redis backing store is an association list of
  (key, stored payload, absolute expiry time); `now` is the current time in
  seconds. `connected` models the flag set by the constructor's connection
  probe, `reachable` models whether an individual Redis round-trip succeeds
  (an unreachable store makes the client raise, which every cache method
  catches).
* `json.dumps`/`pickle.dumps` and the decode-with-fallback of `_deserialize`
  are modelled by the tagged `Payload` type: a pickled payload (protocol ≥ 2)
  begins with byte 0x80, which is never valid UTF-8, so the `json.loads` path
  always raises `UnicodeDecodeError` on it and the two encodings have disjoint
  ranges; the tag records which decoder accepts the payload.  `corruptBytes`
  stands for a stored byte string that fails both decoders.
-/

/-- A Python runtime value, as far as the cache and the fit engine handle
them.  `PyVal.none` is Python's `None`.  The lists this subsystem ever caches
are embedding vectors (lists of floats) and skill lists (lists of strings),
so the list values are modelled by those two homogeneous shapes. -/
inductive PyVal where
  | none
  | bool (b : Bool)
  | int (n : Int)
  | float (q : ℚ)
  | str (s : String)
  | floatList (l : List ℚ)
  | strList (l : List String)
  deriving DecidableEq, Repr

/-- `isinstance(data, (str, int, float, bool))` — the scalar test used by
`CacheService._serialize`. -/
def PyVal.isScalar : PyVal → Bool
  | PyVal.bool _ => true
  | PyVal.int _ => true
  | PyVal.float _ => true
  | PyVal.str _ => true
  | _ => false

/-- Python truthiness (`if value:`) for the values above: `None`, `0`, `0.0`,
`""`, `[]` and `False` are falsy. -/
def truthy : PyVal → Bool
  | PyVal.none => false
  | PyVal.bool b => b
  | PyVal.int n => n != 0
  | PyVal.float q => q != 0
  | PyVal.str s => s != ""
  | PyVal.floatList l => !l.isEmpty
  | PyVal.strList l => !l.isEmpty

/-- Python exception classes that matter to the modelled code paths. -/
inductive PyErr where
  | attributeError
  | typeError
  | apiError
  | timeout
  deriving DecidableEq, Repr

/-- The byte string stored in Redis, tagged by which decoder accepts it
(see the modelling note in the file header). -/
inductive Payload where
  | jsonText (v : PyVal)
  | pickleBlob (v : PyVal)
  | corruptBytes
  deriving DecidableEq, Repr

namespace Settings

/-- `settings.CACHE_TTL` — `int(os.getenv("CACHE_TTL", "3600"))`: 3600 in the
default configuration. -/
def CACHE_TTL : Int := 3600

end Settings

/-- `CacheService._serialize`: scalars are JSON-encoded text, everything else
is pickled.  (In the source the `except` branch also pickles; `json.dumps` on
a scalar cannot fail, so that branch is dead.) -/
def CacheService.serialize (data : PyVal) : Payload :=
  if data.isScalar then Payload.jsonText data else Payload.pickleBlob data

/-- `CacheService._deserialize`: try `json.loads` on the UTF-8 decoding first;
on `JSONDecodeError`/`UnicodeDecodeError` fall back to `pickle.loads`; if that
also fails, log and return `None`. -/
def CacheService.deserialize : Payload → PyVal
  | Payload.jsonText v => v
  | Payload.pickleBlob v => v
  | Payload.corruptBytes => PyVal.none

/-- State of the cache service plus its Redis backing store. -/
structure CacheState where
  /-- Set by the constructor's `ping` probe. -/
  connected : Bool
  /-- Whether a Redis round-trip currently succeeds; when false every client
  call raises (connectivity loss), which the service methods catch. -/
  reachable : Bool
  /-- Current time, seconds. -/
  now : ℚ
  /-- Stored entries: key, payload, absolute expiry time. -/
  store : List (String × Payload × ℚ)
  deriving DecidableEq, Repr

/-- Redis `GET`: the stored payload if the key exists and has not expired.
A key with expiry `e` is gone once `now ≥ e` (`SETEX k t v` keeps the key
alive for `t` seconds). -/
def redisGet (st : CacheState) (k : String) : Option Payload :=
  match st.store.find? (fun e => e.1 == k) with
  | Option.none => Option.none
  | Option.some e => if st.now < e.2.2 then Option.some e.2.1 else Option.none

/-- Redis `SETEX`: store `p` under `k` with expiry `ttl` seconds from now,
replacing any previous entry for `k`. -/
def redisSetex (st : CacheState) (k : String) (ttl : Int) (p : Payload) : CacheState :=
  { st with store := (k, p, st.now + (ttl : ℚ)) :: st.store.filter (fun e => e.1 != k) }

/-- `CacheService.get`: `None` when not connected; otherwise Redis `GET`
(returning `None` on a miss or when the client raises) followed by
`_deserialize`. -/
def CacheService.get (st : CacheState) (k : String) : PyVal :=
  if !st.connected then PyVal.none
  else if !st.reachable then PyVal.none
  else
    match redisGet st k with
    | Option.none => PyVal.none
    | Option.some p => CacheService.deserialize p

/-- `CacheService.set`: `False` when not connected; otherwise serialize,
replace a falsy ttl by the default (`ttl = ttl or settings.CACHE_TTL` — note
that Python's `or` treats `0` like `None`), and `SETEX`.  Redis rejects a
non-positive expire time, and any client exception is caught and turned into
`False`. -/
def CacheService.set (st : CacheState) (k : String) (value : PyVal) (ttl : Option Int) :
    Bool × CacheState :=
  if !st.connected then (false, st)
  else
    let t : Int :=
      match ttl with
      | Option.none => Settings.CACHE_TTL
      | Option.some n => if n = 0 then Settings.CACHE_TTL else n
    if !st.reachable then (false, st)
    else if t ≤ 0 then (false, st)
    else (true, redisSetex st k t (CacheService.serialize value))

/-- `CacheService.get_or_set`: return the cached value if it `is not None`;
otherwise call `func`, store the result best-effort and return it; if `func`
raises, the `except` branch calls `func` a second time (`return
func(*args, **kwargs)`) and that second call's outcome — value or exception —
is what the caller sees.  The producer is modelled as `func : Nat → Except
PyErr PyVal`, `func i` being the outcome of its `i`-th invocation; the third
component of the result counts how many times the producer was invoked. -/
def CacheService.get_or_set (st : CacheState) (k : String) (func : Nat → Except PyErr PyVal)
    (ttl : Option Int) : Except PyErr PyVal × CacheState × Nat :=
  let cached := CacheService.get st k
  if cached != PyVal.none then (Except.ok cached, st, 0)
  else
    match func 0 with
    | Except.ok v =>
        let r := CacheService.set st k v ttl
        (Except.ok v, r.2, 1)
    | Except.error _ => (func 1, st, 2)

/-- Round-trip of the dual-encoding serialization: the decode-with-fallback of
`_deserialize` is a left inverse of `_serialize`. -/
theorem deserialize_serialize (v : PyVal) :
    CacheService.deserialize (CacheService.serialize v) = v := by
  cases v <;> simp [CacheService.serialize, CacheService.deserialize, PyVal.isScalar]

/-- Python `str.strip()` (no arguments): remove leading and trailing
whitespace.  Defined by structural recursion on the character list so that it
evaluates by kernel reduction. -/
def pystrip (s : String) : String :=
  String.mk (((s.toList.dropWhile Char.isWhitespace).reverse.dropWhile
    Char.isWhitespace).reverse)

/-- `CacheKeys.ai_embedding`. -/
def CacheKeys.ai_embedding (text_hash : String) : String := "ai:embedding:" ++ text_hash

/-- `CacheKeys.ai_skills`. -/
def CacheKeys.ai_skills (text_hash : String) : String := "ai:skills:" ++ text_hash

/-- `hashlib.md5(text).hexdigest()`, modelled as the identity on the input
text: md5 is a stable digest whose collisions are negligible (the spec's
ContentHash contract), so the hash is a faithful injective stand-in. -/
def md5hex (s : String) : String := s

/-- The content of the model's reply to the skill-extraction prompt, as seen
after `json.loads`: either it parses as JSON (to the given value), or
`JSONDecodeError` is raised and the code falls back to splitting the raw
content on commas after removing square brackets (the `unparsable` tokens are
those comma-separated pieces). -/
inductive ChatResp where
  | parsed (v : PyVal)
  | unparsable (tokens : List String)
  deriving DecidableEq, Repr

/-- The external AI dependency (OpenAI client + sklearn), modelled as an
oracle: what each outbound call returns — or the exception it raises — in the
execution under consideration. -/
structure Oracle where
  /-- `openai.Embedding.acreate(...)['data'][0]['embedding']`. -/
  embedCreate : String → Except PyErr (List ℚ)
  /-- `sklearn cosine_similarity(vec1, vec2)[0][0]`. -/
  cosSim : List ℚ → List ℚ → Except PyErr ℚ
  /-- `openai.ChatCompletion.acreate(...)` for skill extraction, composed
  with the `json.loads` attempt on the reply content. -/
  chatCreate : String → Except PyErr ChatResp

/-- Interpret a cached/returned value as the `List[float]` that
`np.array(...)` accepts; anything else makes numpy raise (caught by
`calculate_similarity`). -/
def asFloats : PyVal → Option (List ℚ)
  | PyVal.floatList l => Option.some l
  | _ => Option.none

/-- `AIService.calculate_similarity`: 0.0 if either argument is falsy,
otherwise the sklearn cosine similarity; any exception inside the `try`
(numpy conversion, sklearn) is caught and the function returns 0.0. -/
def AIService.calculate_similarity (o : Oracle) (embedding1 embedding2 : PyVal) : ℚ :=
  if !truthy embedding1 || !truthy embedding2 then 0
  else
    match asFloats embedding1, asFloats embedding2 with
    | Option.some v1, Option.some v2 =>
        match o.cosSim v1 v2 with
        | Except.ok s => s
        | Except.error _ => 0
    | _, _ => 0

/-- `AIService.get_embedding`: `None` for empty/blank text; then a cache
lookup under `ai:embedding:<md5>`; on a miss, call the dependency, cache the
vector with ttl 86400 and return it; any exception (in particular a failing
dependency call) is caught and the function returns `None`.  The third
component counts the dependency calls made (0 or 1). -/
def AIService.get_embedding (o : Oracle) (st : CacheState) (text : String) :
    PyVal × CacheState × Nat :=
  if text == "" || (pystrip text) == "" then (PyVal.none, st, 0)
  else
    let cache_key := CacheKeys.ai_embedding (md5hex (pystrip text))
    let cached_embedding := CacheService.get st cache_key
    if cached_embedding != PyVal.none then (cached_embedding, st, 0)
    else
      match o.embedCreate (pystrip text) with
      | Except.error _ => (PyVal.none, st, 1)
      | Except.ok embedding =>
          let v := PyVal.floatList embedding
          let r := CacheService.set st cache_key v (Option.some 86400)
          (v, r.2, 1)

/-- `skill.strip('"\x27')` — strip double- and single-quote characters
(byte values 34 and 39) from both ends. -/
def stripQuoteChars (s : String) : String :=
  String.mk (((s.toList.dropWhile fun c => c.toNat = 34 || c.toNat = 39).reverse.dropWhile
    fun c => c.toNat = 34 || c.toNat = 39).reverse)

/-- `AIService.extract_skills_from_text`: `[]` for absent text or fewer than
50 characters after stripping; then a cache lookup under `ai:skills:<md5>`;
on a miss, call the chat dependency and post-process its reply — a JSON list
keeps its non-blank string elements (stripped), a JSON non-list gives `[]`,
and an unparsable reply is comma-split, stripped, blank-filtered and
quote-stripped; the result is cached with ttl 43200.  Any exception (in
particular a failing dependency call) is caught and the function returns
`[]`.  The third component counts the dependency calls made (0 or 1). -/
def AIService.extract_skills_from_text (o : Oracle) (st : CacheState) (text : String) :
    PyVal × CacheState × Nat :=
  if text == "" || (pystrip text).length < 50 then (PyVal.strList [], st, 0)
  else
    let cache_key := CacheKeys.ai_skills (md5hex (pystrip text))
    let cached_skills := CacheService.get st cache_key
    if cached_skills != PyVal.none then (cached_skills, st, 0)
    else
      match o.chatCreate text with
      | Except.error _ => (PyVal.strList [], st, 1)
      | Except.ok resp =>
          let result : List String :=
            match resp with
            | ChatResp.parsed (PyVal.strList l) =>
                (l.map pystrip).filter (fun s => s != "")
            | ChatResp.parsed _ => []
            | ChatResp.unparsable tokens =>
                ((tokens.map pystrip).filter (fun s => s != "")).map stripQuoteChars
          let v := PyVal.strList result
          let r := CacheService.set st cache_key v (Option.some 43200)
          (v, r.2, 1)

/-- The three fit statuses (`models.FitStatus` values, returned as strings by
the engine). -/
inductive FitStatus where
  | FIT
  | BORDERLINE
  | NOT_FIT
  deriving DecidableEq, Repr

/-- The triple `(final_score, status, reasons)` returned by the engine. -/
structure MatchResult where
  score : ℚ
  status : FitStatus
  reasons : List String
  deriving DecidableEq, Repr

/-- `', '.join(...)`. -/
def joinComma (l : List String) : String := String.intercalate ", " l

/-- Lines 220–261 of `AIService.compute_match_score`, parameterized by the
already-computed `semantic_score`: the skill-set arithmetic, the blended
final score, the status classification and the reasons.  Sets built with
`set(...)` are modelled by `List.toFinset`; the joined reason lists are taken
in (deduplicated) input order, since Python's set iteration order is
unspecified. -/
def matchScoreCore (semantic_score : ℚ)
    (must_have nice_to_have resume_skills : List String) : MatchResult :=
  let must_have_skills := must_have.toFinset
  let nice_to_have_skills := nice_to_have.toFinset
  let candidate_skills := resume_skills.toFinset
  let must_have_matches := must_have_skills ∩ candidate_skills
  let must_have_missing := must_have_skills \ candidate_skills
  let nice_to_have_matches := nice_to_have_skills ∩ candidate_skills
  let must_have_score : ℚ := (must_have_matches.card : ℚ) / (max must_have_skills.card 1 : ℚ)
  let nice_to_have_score : ℚ :=
    ((nice_to_have_matches.card : ℚ) / (max nice_to_have_skills.card 1 : ℚ)) * (3/10)
  let skill_score : ℚ := must_have_score + nice_to_have_score
  let final_score : ℚ := semantic_score * (2/5) + skill_score * (3/5)
  let status :=
    if must_have_missing ≠ ∅ then FitStatus.NOT_FIT
    else if final_score ≥ 3/4 then FitStatus.FIT
    else if final_score ≥ 1/2 then FitStatus.BORDERLINE
    else FitStatus.NOT_FIT
  let matchedMust := must_have.dedup.filter (fun s => resume_skills.contains s)
  let missingMust := must_have.dedup.filter (fun s => !resume_skills.contains s)
  let matchedNice := nice_to_have.dedup.filter (fun s => resume_skills.contains s)
  let reasons : List String :=
    (if matchedMust ≠ [] then ["Matched must-have skills: " ++ joinComma matchedMust] else [])
    ++ (if missingMust ≠ [] then ["Missing must-have skills: " ++ joinComma missingMust] else [])
    ++ (if matchedNice ≠ [] then ["Bonus skills: " ++ joinComma matchedNice] else [])
    ++ (if semantic_score > 7/10 then ["High semantic similarity to job description"] else [])
  ⟨final_score, status, reasons⟩

/-- The `semantic_score` computed at the top of
`AIService.compute_match_score`: fetch the two embeddings (cache-backed, each
catching its own failures), then 0.0 unless both embeddings are truthy
(`if job_embedding and resume_embedding:`), else their similarity. -/
def AIService.match_semantic (o : Oracle) (st : CacheState)
    (job_description resume_text : String) : ℚ :=
  let r1 := AIService.get_embedding o st job_description
  let r2 := AIService.get_embedding o r1.2.1 resume_text
  if truthy r1.1 && truthy r2.1 then AIService.calculate_similarity o r1.1 r2.1 else 0

/-- `AIService.compute_match_score`: the semantic score
(`AIService.match_semantic`) followed by the skill/status/reasons
straight-line code (`matchScoreCore`).  Every sub-step catches its own
exceptions, so the body never raises and the function's own
`except Exception` branch (which would return
`(0.0, "NOT_FIT", ["Error in matching process"])`) is dead code.  The last
component counts dependency calls. -/
def AIService.compute_match_score (o : Oracle) (st : CacheState)
    (job_description : String) (must_have nice_to_have : List String)
    (resume_text : String) (resume_skills : List String) :
    MatchResult × CacheState × Nat :=
  let r1 := AIService.get_embedding o st job_description
  let r2 := AIService.get_embedding o r1.2.1 resume_text
  (matchScoreCore (AIService.match_semantic o st job_description resume_text)
    must_have nice_to_have resume_skills, r2.2.1, r1.2.2 + r2.2.2)

/-- The `resume_json` argument reaching `compute_fit_score_fallback`: at the
sync call sites it is the resume dict (with a `"skills"` list), but in the
`except` branch of `compute_fit_score_async` it is the bare `resume_skills`
list, which has no `.get` attribute. -/
inductive ResumeArg where
  | dict (skills : List String)
  | pylist (skills : List String)
  deriving DecidableEq, Repr

/-- `compute_fit_score_fallback` (`app/services/match.py`): purely skill-set
based scoring.  The body contains no `try/except`; `resume_json.get("skills",
[])` raises `AttributeError` when `resume_json` is a bare list, and that
exception propagates to the caller.  `jd_json` is modelled by its
`"must_have"` list. -/
def compute_fit_score_fallback (jd_must_have : List String) (resume_json : ResumeArg) :
    Except PyErr MatchResult :=
  match resume_json with
  | ResumeArg.pylist _ => Except.error PyErr.attributeError
  | ResumeArg.dict skills =>
      let jd_must := jd_must_have.toFinset
      let res_skills := skills.toFinset
      let skills_overlap := (jd_must ∩ res_skills).card
      let overlapList := jd_must_have.dedup.filter (fun s => skills.contains s)
      let must_miss := jd_must_have.dedup.filter (fun s => !skills.contains s)
      let base : ℚ := 1/2 + (1/10) * skills_overlap - (1/20) * must_miss.length
      let score : ℚ := max 0 (min 1 base)
      let status :=
        if score ≥ 7/10 then FitStatus.FIT
        else if score ≥ 11/20 then FitStatus.BORDERLINE
        else FitStatus.NOT_FIT
      let reasons : List String :=
        [if overlapList ≠ [] then "Matched skills: " ++ joinComma overlapList else "No overlaps",
         if must_miss ≠ [] then "Missing must-haves: " ++ joinComma must_miss
         else "All must-haves present"]
      Except.ok ⟨score, status, reasons⟩

/-- `compute_fit_score_async` (`app/services/match.py`): `try: return await
ai_service.compute_match_score(...) except: return
compute_fit_score_fallback(job_requirements, resume_skills)`.  The modelled
`compute_match_score` is total — every operational failure is absorbed inside
it — so the `except` branch (which would pass the bare `resume_skills` list
as `resume_json`) is unreachable and the function always delivers
`compute_match_score`'s result. -/
def compute_fit_score_async (o : Oracle) (st : CacheState)
    (job_description : String) (must_have nice_to_have : List String)
    (resume_text : String) (resume_skills : List String) :
    Except PyErr MatchResult × CacheState :=
  let r := AIService.compute_match_score o st job_description must_have nice_to_have
    resume_text resume_skills
  (Except.ok r.1, r.2.1)

/-- A cache service whose startup connection probe failed: the system's
no-cache mode. -/
def noCache : CacheState := ⟨false, false, 0, []⟩

/-- An execution in which every outbound dependency call raises (timeout). -/
def oracleFail : Oracle :=
  ⟨fun _ => Except.error PyErr.timeout, fun _ _ => Except.error PyErr.timeout,
   fun _ => Except.error PyErr.timeout⟩

/-- An execution in which the dependency returns embedding (3,4) for the job
text "jd" and (4,3) otherwise; their exact cosine similarity is
24/(5·5) = 24/25 = 0.96, which is what the sklearn call returns. -/
def oracle96 : Oracle :=
  ⟨fun t => if t == "jd" then Except.ok [3, 4] else Except.ok [4, 3],
   fun _ _ => Except.ok (24/25),
   fun _ => Except.error PyErr.timeout⟩

/-- An execution in which the dependency returns embedding (3,0,0,0,0) for
the job text "jd" and (3,2,1,1,1) otherwise; their exact cosine similarity is
9/(3·4) = 3/4 = 0.75, which is what the sklearn call returns. -/
def oracle75 : Oracle :=
  ⟨fun t => if t == "jd" then Except.ok [3, 0, 0, 0, 0] else Except.ok [3, 2, 1, 1, 1],
   fun _ _ => Except.ok (3/4),
   fun _ => Except.error PyErr.timeout⟩


/-- A producer whose first invocation raises and whose retry returns a value:
it exposes the retry loop in `get_or_set`'s `except` branch. -/
def flakyProducer (i : Nat) : Except PyErr PyVal :=
  if i = 0 then Except.error PyErr.timeout else Except.ok (PyVal.int 7)

/-- A producer that deterministically returns `5`. -/
def okProducer (_ : Nat) : Except PyErr PyVal := Except.ok (PyVal.int 5)

/-- A producer that deterministically returns `None`. -/
def noneProducer (_ : Nat) : Except PyErr PyVal := Except.ok PyVal.none

/-- `CacheService.set` with a connected, reachable store and a positive ttl
succeeds and performs the `SETEX` with exactly that ttl. -/
theorem CacheService.set_pos (st : CacheState) (k : String) (v : PyVal) (t : Int)
    (hconn : st.connected = true) (hreach : st.reachable = true) (ht : 0 < t) :
    CacheService.set st k v (Option.some t) =
      (true, redisSetex st k t (CacheService.serialize v)) := by
  have h0 : ¬ t = 0 := by omega
  have h1 : ¬ t ≤ 0 := by omega
  simp [CacheService.set, hconn, hreach, h0, h1]

/-- Reading key `k` at time `now'` from a connected, reachable store right
after `SETEX k t p` was issued at time `st.now`: the deserialized payload
while `now' < st.now + t`, absent from then on. -/
theorem CacheService.get_setex_at (st : CacheState) (k : String) (p : Payload) (t : Int)
    (now' : ℚ) (hconn : st.connected = true) (hreach : st.reachable = true) :
    CacheService.get { redisSetex st k t p with now := now' } k =
      if now' < st.now + (t : ℚ) then CacheService.deserialize p else PyVal.none := by
  simp only [CacheService.get, redisGet, redisSetex, hconn, hreach, List.find?,
    beq_self_eq_true, Bool.not_true, Bool.false_eq_true, if_false]
  by_cases h : now' < st.now + (t : ℚ) <;> simp [h]

/-- Claim C9: for every key `k` and every serializable value `v`, immediately
after a successful `set(k, v, ttl)` and while the ttl has not elapsed,
`get(k)` returns a value equal to `v` — deserialization (text decode first,
binary fallback) is a left inverse of serialization. -/
theorem C9_cache_round_trip (st : CacheState) (k : String) (v : PyVal) (t : Int) (d : ℚ)
    (hconn : st.connected = true) (hreach : st.reachable = true)
    (ht : 0 < t) (hd : d < (t : ℚ)) :
    (CacheService.set st k v (Option.some t)).1 = true ∧
    CacheService.get { (CacheService.set st k v (Option.some t)).2 with now := st.now + d } k
      = v := by
  rw [CacheService.set_pos st k v t hconn hreach ht]
  refine ⟨rfl, ?_⟩
  rw [CacheService.get_setex_at st k (CacheService.serialize v) t (st.now + d) hconn hreach,
    if_pos (by linarith), deserialize_serialize]

/-- Witness for C9 at a concrete input: storing the skill list under ttl 10
and reading it back 5 seconds later yields the stored value. -/
theorem C9_cache_round_trip_witness :
    (CacheService.set ⟨true, true, 0, []⟩ "k" (PyVal.strList ["Python"]) (Option.some 10)).1
      = true ∧
    CacheService.get { (CacheService.set ⟨true, true, 0, []⟩ "k" (PyVal.strList ["Python"])
      (Option.some 10)).2 with now := (0 : ℚ) + 5 } "k" = PyVal.strList ["Python"] :=
  C9_cache_round_trip ⟨true, true, 0, []⟩ "k" (PyVal.strList ["Python"]) 10 5 rfl rfl
    (by decide) (by norm_num)

/-- Claim C8, positive-ttl part (the amended claim): after a successful
`set(k, v, ttl)` with `ttl > 0`, once at least `ttl` seconds have elapsed,
`get(k)` returns absent, exactly as if the key had never been present. -/
theorem C8_expiration_positive_ttl (st : CacheState) (k : String) (v : PyVal) (t : Int) (d : ℚ)
    (hconn : st.connected = true) (hreach : st.reachable = true)
    (ht : 0 < t) (hd : (t : ℚ) ≤ d) :
    (CacheService.set st k v (Option.some t)).1 = true ∧
    CacheService.get { (CacheService.set st k v (Option.some t)).2 with now := st.now + d } k
      = PyVal.none := by
  rw [CacheService.set_pos st k v t hconn hreach ht]
  refine ⟨rfl, ?_⟩
  rw [CacheService.get_setex_at st k (CacheService.serialize v) t (st.now + d) hconn hreach,
    if_neg (by linarith)]

/-- Witness for C8's amended claim at a concrete input: a value stored with
ttl 1 is absent 2 seconds later. -/
theorem C8_expiration_positive_ttl_witness :
    (CacheService.set ⟨true, true, 0, []⟩ "k" (PyVal.str "v") (Option.some 1)).1 = true ∧
    CacheService.get { (CacheService.set ⟨true, true, 0, []⟩ "k" (PyVal.str "v")
      (Option.some 1)).2 with now := (0 : ℚ) + 2 } "k" = PyVal.none :=
  C8_expiration_positive_ttl ⟨true, true, 0, []⟩ "k" (PyVal.str "v") 1 2 rfl rfl
    (by decide) (by norm_num)

/-- Counterexample to claim C8 as stated: with `ttl = 0` (the claim's
`ttl=0..ε` includes 0), `set` succeeds — Python's `ttl or settings.CACHE_TTL`
treats 0 as unset and substitutes the default 3600 — and a read 1 second
later (more than 0 seconds elapsed) still returns the value instead of
absent. -/
theorem C8_counterexample :
    (CacheService.set ⟨true, true, 0, []⟩ "k" (PyVal.str "v") (Option.some 0)).1 = true ∧
    CacheService.get { (CacheService.set ⟨true, true, 0, []⟩ "k" (PyVal.str "v")
      (Option.some 0)).2 with now := 1 } "k" = PyVal.str "v" := by
  with_unfolding_all decide

/-- Claim C5, amended: in a single `get_or_set` call the producer is invoked
at most twice — zero times on a cache hit, exactly once when its first
invocation succeeds (whether or not the store is reachable; only the storing
of the result is best-effort), and twice when the first invocation raises:
the first failure is caught and the producer retried, and only the retry's
outcome (value or exception) reaches the caller. -/
theorem C5_producer_invocations (st : CacheState) (k : String)
    (func : Nat → Except PyErr PyVal) (ttl : Option Int) :
    (CacheService.get_or_set st k func ttl).2.2 ≤ 2 ∧
    (CacheService.get st k ≠ PyVal.none →
      CacheService.get_or_set st k func ttl = (Except.ok (CacheService.get st k), st, 0)) ∧
    (CacheService.get st k = PyVal.none → ∀ v, func 0 = Except.ok v →
      CacheService.get_or_set st k func ttl =
        (Except.ok v, (CacheService.set st k v ttl).2, 1)) ∧
    (CacheService.get st k = PyVal.none → ∀ e, func 0 = Except.error e →
      CacheService.get_or_set st k func ttl = (func 1, st, 2)) := by
  by_cases h : CacheService.get st k = PyVal.none
  · cases hf : func 0 with
    | ok v => refine ⟨?_, ?_, ?_, ?_⟩ <;> simp [CacheService.get_or_set, h, hf]
    | error e => refine ⟨?_, ?_, ?_, ?_⟩ <;> simp [CacheService.get_or_set, h, hf]
  · refine ⟨?_, ?_, ?_, ?_⟩ <;> simp [CacheService.get_or_set, h]

/-- Witness for C5's amended claim at a concrete input: with the store
unreachable and a producer whose first call succeeds, the producer runs
exactly once and its value is returned. -/
theorem C5_producer_invocations_witness :
    CacheService.get_or_set noCache "k" okProducer Option.none =
      (Except.ok (PyVal.int 5), (CacheService.set noCache "k" (PyVal.int 5) Option.none).2, 1) :=
  (C5_producer_invocations noCache "k" okProducer Option.none).2.2.1 rfl (PyVal.int 5) rfl

/-- Counterexample to claim C5 as stated: on a cache miss with a producer
whose first invocation raises, `get_or_set` invokes the producer twice (not
at most once) and delivers the retry's value — the producer's own first
failure is suppressed, not propagated. -/
theorem C5_counterexample :
    (CacheService.get_or_set noCache "k" flakyProducer Option.none).2.2 = 2 ∧
    (CacheService.get_or_set noCache "k" flakyProducer Option.none).1 =
      Except.ok (PyVal.int 7) :=
  ⟨rfl, rfl⟩

/-- Claim C10: a stored `None` is indistinguishable from absence.  After a
cache miss, `get_or_set` with a producer returning `None` invokes the
producer, stores `None` successfully, and yet a subsequent `get` on the
resulting state still returns `None` — so the next `get_or_set` call on that
state misses again and re-invokes the producer. -/
theorem C10_stored_none_is_absent (st : CacheState) (k : String) (t : Int)
    (hconn : st.connected = true) (hreach : st.reachable = true) (ht : 0 < t)
    (hmiss : CacheService.get st k = PyVal.none) :
    (CacheService.get_or_set st k noneProducer (Option.some t)).2.2 = 1 ∧
    CacheService.get (CacheService.get_or_set st k noneProducer (Option.some t)).2.1 k
      = PyVal.none ∧
    (CacheService.get_or_set (CacheService.get_or_set st k noneProducer (Option.some t)).2.1
      k noneProducer (Option.some t)).2.2 = 1 := by
  have hrun : CacheService.get_or_set st k noneProducer (Option.some t) =
      (Except.ok PyVal.none, (CacheService.set st k PyVal.none (Option.some t)).2, 1) :=
    (C5_producer_invocations st k noneProducer (Option.some t)).2.2.1 hmiss PyVal.none rfl
  have hset := CacheService.set_pos st k PyVal.none t hconn hreach ht
  have hlive : st.now < st.now + (t : ℚ) := by
    have h0 : (0 : ℚ) < (t : ℚ) := by exact_mod_cast ht
    linarith
  have hget : CacheService.get (CacheService.set st k PyVal.none (Option.some t)).2 k
      = PyVal.none := by
    rw [hset]
    have h := CacheService.get_setex_at st k (CacheService.serialize PyVal.none) t st.now
      hconn hreach
    rw [if_pos hlive, deserialize_serialize] at h
    exact h
  refine ⟨by rw [hrun], by rw [hrun]; exact hget, ?_⟩
  rw [hrun]
  have hrun2 := (C5_producer_invocations (CacheService.set st k PyVal.none (Option.some t)).2
    k noneProducer (Option.some t)).2.2.1 hget PyVal.none rfl
  rw [hrun2]

/-- The skill-coverage ratios of the engine lie in `[0, 1]`: the numerator
counts an intersection with the set in the denominator, and the denominator
`max(card, 1)` is at least 1. -/
theorem ratio_nonneg_le_one (a b : List String) :
    0 ≤ ((a.toFinset ∩ b.toFinset).card : ℚ) / (max a.toFinset.card 1 : ℚ) ∧
    ((a.toFinset ∩ b.toFinset).card : ℚ) / (max a.toFinset.card 1 : ℚ) ≤ 1 := by
  have hb : (0 : ℚ) < (max a.toFinset.card 1 : ℚ) := by
    have h1 : 1 ≤ max a.toFinset.card 1 := le_max_right _ _
    exact_mod_cast Nat.lt_of_lt_of_le Nat.zero_lt_one h1
  constructor
  · exact div_nonneg (by positivity) hb.le
  · rw [div_le_one hb]
    have hcard : (a.toFinset ∩ b.toFinset).card ≤ max a.toFinset.card 1 :=
      le_trans (Finset.card_le_card Finset.inter_subset_left) (le_max_left _ _)
    exact_mod_cast hcard

/-- The final score of `matchScoreCore`, written out. -/
theorem matchScoreCore_score_eq (s : ℚ) (must nice rs : List String) :
    (matchScoreCore s must nice rs).score =
      s * (2/5) +
        (((must.toFinset ∩ rs.toFinset).card : ℚ) / (max must.toFinset.card 1 : ℚ) +
          ((nice.toFinset ∩ rs.toFinset).card : ℚ) / (max nice.toFinset.card 1 : ℚ) * (3/10))
          * (3/5) := rfl

/-- Range of the blended final score: with a semantic score in `[-1, 1]`,
`skill_score` lies in `[0, 1.3]` and the returned blend lies in
`[-0.4, 1.18]` — no clamping narrows it to `[0, 1]`. -/
theorem matchScoreCore_score_bounds (s : ℚ) (must nice rs : List String)
    (hs1 : -1 ≤ s) (hs2 : s ≤ 1) :
    -(2/5) ≤ (matchScoreCore s must nice rs).score ∧
    (matchScoreCore s must nice rs).score ≤ 59/50 := by
  rw [matchScoreCore_score_eq]
  obtain ⟨h1a, h1b⟩ := ratio_nonneg_le_one must rs
  obtain ⟨h2a, h2b⟩ := ratio_nonneg_le_one nice rs
  constructor <;> nlinarith

/-- If some must-have skill is missing from the candidate skills, the status
branch `if must_have_missing:` fires and the result is `NOT_FIT`. -/
theorem matchScoreCore_status_missing (s : ℚ) (must nice rs : List String)
    (h : ∃ x ∈ must, x ∉ rs) :
    (matchScoreCore s must nice rs).status = FitStatus.NOT_FIT := by
  obtain ⟨x, hx, hnx⟩ := h
  have hmem : x ∈ must.toFinset \ rs.toFinset := by
    simp [List.mem_toFinset, hx, hnx]
  have hne : must.toFinset \ rs.toFinset ≠ ∅ := by
    intro hemp
    rw [hemp] at hmem
    exact absurd hmem (Finset.not_mem_empty x)
  simp only [matchScoreCore]
  rw [if_pos hne]

/-- `calculate_similarity` stays within any interval `[lo, hi]` around 0 that
contains every similarity value the dependency returns: all other branches
return 0.0. -/
theorem calculate_similarity_mem (o : Oracle) (e1 e2 : PyVal) (lo hi : ℚ)
    (hlo : lo ≤ 0) (hhi : 0 ≤ hi)
    (hcos : ∀ v1 v2 s, o.cosSim v1 v2 = Except.ok s → lo ≤ s ∧ s ≤ hi) :
    lo ≤ AIService.calculate_similarity o e1 e2 ∧
    AIService.calculate_similarity o e1 e2 ≤ hi := by
  unfold AIService.calculate_similarity
  split
  · exact ⟨hlo, hhi⟩
  · split
    · split
      · apply hcos
        assumption
      · exact ⟨hlo, hhi⟩
    · exact ⟨hlo, hhi⟩

/-- The semantic score computed by the engine stays within any interval
`[lo, hi]` around 0 that contains every similarity value the dependency
returns. -/
theorem match_semantic_mem (o : Oracle) (st : CacheState) (jd rt : String) (lo hi : ℚ)
    (hlo : lo ≤ 0) (hhi : 0 ≤ hi)
    (hcos : ∀ v1 v2 s, o.cosSim v1 v2 = Except.ok s → lo ≤ s ∧ s ≤ hi) :
    lo ≤ AIService.match_semantic o st jd rt ∧
    AIService.match_semantic o st jd rt ≤ hi := by
  unfold AIService.match_semantic
  dsimp only
  by_cases hc : (truthy (AIService.get_embedding o st jd).1 &&
      truthy (AIService.get_embedding o (AIService.get_embedding o st jd).2.1 rt).1) = true
  · rw [if_pos hc]
    exact calculate_similarity_mem o _ _ lo hi hlo hhi hcos
  · rw [if_neg hc]
    exact ⟨hlo, hhi⟩

/-- An execution in which the dependency returns the unit embedding (1,0) for
both texts; their cosine similarity is exactly 1, which is what the sklearn
call returns. -/
def oracle100 : Oracle :=
  ⟨fun _ => Except.ok [1, 0], fun _ _ => Except.ok 1,
   fun _ => Except.error PyErr.timeout⟩

/-- The status classification of `matchScoreCore`, written out. -/
theorem matchScoreCore_status_eq (s : ℚ) (must nice rs : List String) :
    (matchScoreCore s must nice rs).status =
      if must.toFinset \ rs.toFinset ≠ ∅ then FitStatus.NOT_FIT
      else if (matchScoreCore s must nice rs).score ≥ 3/4 then FitStatus.FIT
      else if (matchScoreCore s must nice rs).score ≥ 1/2 then FitStatus.BORDERLINE
      else FitStatus.NOT_FIT := rfl

/-- With an empty must-have set, `must_have_score` is 0, so the final score
is at most `0.4·s + 0.18 ≤ 0.58 < 0.75` whenever `s ≤ 1`: the `FIT` branch
is unreachable. -/
theorem matchScoreCore_status_empty_must (s : ℚ) (nice rs : List String) (hs : s ≤ 1) :
    (matchScoreCore s [] nice rs).status = FitStatus.BORDERLINE ∨
    (matchScoreCore s [] nice rs).status = FitStatus.NOT_FIT := by
  have hscore : (matchScoreCore s [] nice rs).score < 3/4 := by
    rw [matchScoreCore_score_eq]
    obtain ⟨h2a, h2b⟩ := ratio_nonneg_le_one nice rs
    simp only [List.toFinset_nil, Finset.empty_inter, Finset.card_empty, Nat.cast_zero,
      zero_div, zero_add, Finset.empty_sdiff]
    nlinarith
  rw [matchScoreCore_status_eq, if_neg (by simp), if_neg (not_le.mpr hscore)]
  by_cases h2 : (matchScoreCore s [] nice rs).score ≥ 1/2
  · left
    rw [if_pos h2]
  · right
    rw [if_neg h2]

/-- When the cache never connected and every embedding call raises,
`get_embedding` returns `None` (the exception is swallowed) and leaves the
cache state unchanged. -/
theorem get_embedding_fail (o : Oracle) (st : CacheState) (text : String)
    (hdisc : st.connected = false)
    (hfail : ∀ t, ∃ e, o.embedCreate t = Except.error e) :
    (AIService.get_embedding o st text).1 = PyVal.none ∧
    (AIService.get_embedding o st text).2.1 = st := by
  unfold AIService.get_embedding
  split
  · exact ⟨rfl, rfl⟩
  · have hget : CacheService.get st (CacheKeys.ai_embedding (md5hex (pystrip text)))
        = PyVal.none := by simp [CacheService.get, hdisc]
    obtain ⟨e, he⟩ := hfail (pystrip text)
    simp [hget, he]

/-- When the cache never connected and every embedding call raises, the
semantic score degrades to 0.0. -/
theorem match_semantic_fail (o : Oracle) (st : CacheState) (jd rt : String)
    (hdisc : st.connected = false)
    (hfail : ∀ t, ∃ e, o.embedCreate t = Except.error e) :
    AIService.match_semantic o st jd rt = 0 := by
  unfold AIService.match_semantic
  dsimp only
  rw [(get_embedding_fail o st jd hdisc hfail).1]
  simp [truthy]

/-- Claim C1, amended: `compute_match_score` returns the blend
`semantic_score*0.4 + skill_score*0.6` without any clamping.  Whenever the
similarity values returned by the dependency lie in `[-1, 1]` (as a cosine
does), the returned score lies in `[-0.4, 1.18]` — not in `[0, 1]`; full
must-have plus full nice-to-have coverage pushes it above 1. -/
theorem C1_score_unclamped_range (o : Oracle) (st : CacheState)
    (job_description : String) (must nice : List String)
    (resume_text : String) (resume_skills : List String)
    (hcos : ∀ v1 v2 s, o.cosSim v1 v2 = Except.ok s → -1 ≤ s ∧ s ≤ 1) :
    -(2/5) ≤ (AIService.compute_match_score o st job_description must nice
      resume_text resume_skills).1.score ∧
    (AIService.compute_match_score o st job_description must nice
      resume_text resume_skills).1.score ≤ 59/50 := by
  have hs := match_semantic_mem o st job_description resume_text (-1) 1
    (by norm_num) (by norm_num) hcos
  exact matchScoreCore_score_bounds _ must nice resume_skills hs.1 hs.2

/-- Witness for C1's amended claim at the spec's own end-to-end example
(§8): semantic 0.96, full must-have and nice-to-have coverage. -/
theorem C1_score_unclamped_range_witness :
    -(2/5) ≤ (AIService.compute_match_score oracle96 noCache "jd" ["Python", "SQL"]
      ["Docker"] "rt" ["Python", "SQL", "Docker"]).1.score ∧
    (AIService.compute_match_score oracle96 noCache "jd" ["Python", "SQL"]
      ["Docker"] "rt" ["Python", "SQL", "Docker"]).1.score ≤ 59/50 :=
  C1_score_unclamped_range oracle96 noCache "jd" ["Python", "SQL"] ["Docker"] "rt"
    ["Python", "SQL", "Docker"] (by
      intro v1 v2 s h
      injection h with h2
      rw [← h2]
      constructor <;> norm_num)

/-- Counterexample to claim C1 as stated: at the spec's §8 example (must-have
Python and SQL, nice-to-have Docker, all three present, semantic score 0.96)
the returned score is 1.164 — greater than 1, because the code never clamps
the blend. -/
theorem C1_counterexample :
    (AIService.compute_match_score oracle96 noCache "jd" ["Python", "SQL"] ["Docker"] "rt"
      ["Python", "SQL", "Docker"]).1.score = 291/250 ∧
    ¬ ((291 : ℚ)/250 ≤ 1) := by
  constructor
  · with_unfolding_all decide
  · norm_num

/-- Claim C2: if some must-have skill is absent from the candidate skill set
(exact, case-sensitive membership), the returned status is `NOT_FIT`, for
every oracle, cache state and input — regardless of the semantic score. -/
theorem C2_missing_must_have_gates_not_fit (o : Oracle) (st : CacheState)
    (job_description : String) (must nice : List String)
    (resume_text : String) (resume_skills : List String)
    (h : ∃ x ∈ must, x ∉ resume_skills) :
    (AIService.compute_match_score o st job_description must nice
      resume_text resume_skills).1.status = FitStatus.NOT_FIT :=
  matchScoreCore_status_missing _ must nice resume_skills h

/-- Witness for C2 at a concrete input: must-have Go missing while the
dependency reports semantic similarity 1.0 — still `NOT_FIT`. -/
theorem C2_missing_must_have_gates_not_fit_witness :
    (AIService.compute_match_score oracle100 noCache "jd" ["Go"] [] "rt"
      ["Python"]).1.status = FitStatus.NOT_FIT :=
  C2_missing_must_have_gates_not_fit oracle100 noCache "jd" ["Go"] [] "rt" ["Python"]
    ⟨"Go", by decide, by decide⟩

/-- Claim C3, amended: when the external dependency raises,
`get_embedding` swallows the exception and returns `None`, so
`compute_match_score` completes normally with semantic score 0.0 — and
`compute_fit_score_async` therefore delivers that degraded skill-only
result; its `except` branch (the only call site of
`compute_fit_score_fallback` on this path) never runs. -/
theorem C3_dependency_failure_uses_degraded_compute (o : Oracle) (st : CacheState)
    (job_description : String) (must nice : List String)
    (resume_text : String) (resume_skills : List String)
    (hdisc : st.connected = false)
    (hfail : ∀ t, ∃ e, o.embedCreate t = Except.error e) :
    (compute_fit_score_async o st job_description must nice
      resume_text resume_skills).1 =
      Except.ok (matchScoreCore 0 must nice resume_skills) := by
  show Except.ok (matchScoreCore (AIService.match_semantic o st job_description resume_text)
    must nice resume_skills) = _
  rw [match_semantic_fail o st job_description resume_text hdisc hfail]

/-- Witness for C3's amended claim at a concrete input: with every dependency
call timing out, the engine delivers the skill-only result of
`compute_match_score`. -/
theorem C3_dependency_failure_uses_degraded_compute_witness :
    (compute_fit_score_async oracleFail noCache "jd" ["A", "B"] [] "rt" ["A", "B"]).1 =
      Except.ok (matchScoreCore 0 ["A", "B"] [] ["A", "B"]) :=
  C3_dependency_failure_uses_degraded_compute oracleFail noCache "jd" ["A", "B"] [] "rt"
    ["A", "B"] rfl (fun _ => ⟨PyErr.timeout, rfl⟩)

/-- Counterexample to claim C3 as stated: with every dependency call raising,
the result delivered to the caller (score 0.6, `BORDERLINE`) is not the
fallback scorer's result on the same skill data (score 0.7, `FIT`) — the
fallback is never invoked on dependency failure. -/
theorem C3_counterexample :
    (compute_fit_score_async oracleFail noCache "jd" ["A", "B"] [] "rt" ["A", "B"]).1 =
      Except.ok (MatchResult.mk (3/5) FitStatus.BORDERLINE
        ["Matched must-have skills: A, B"]) ∧
    compute_fit_score_fallback ["A", "B"] (ResumeArg.dict ["A", "B"]) =
      Except.ok (MatchResult.mk (7/10) FitStatus.FIT
        ["Matched skills: A, B", "All must-haves present"]) ∧
    (compute_fit_score_async oracleFail noCache "jd" ["A", "B"] [] "rt" ["A", "B"]).1 ≠
      compute_fit_score_fallback ["A", "B"] (ResumeArg.dict ["A", "B"]) := by
  have h1 : (compute_fit_score_async oracleFail noCache "jd" ["A", "B"] [] "rt"
      ["A", "B"]).1 = Except.ok (MatchResult.mk (3/5) FitStatus.BORDERLINE
        ["Matched must-have skills: A, B"]) := by with_unfolding_all rfl
  have h2 : compute_fit_score_fallback ["A", "B"] (ResumeArg.dict ["A", "B"]) =
      Except.ok (MatchResult.mk (7/10) FitStatus.FIT
        ["Matched skills: A, B", "All must-haves present"]) := by with_unfolding_all rfl
  refine ⟨h1, h2, ?_⟩
  rw [h1, h2]
  intro hcontra
  have h3 := congrArg (fun x => match x with
    | Except.ok r => MatchResult.status r
    | Except.error _ => FitStatus.NOT_FIT) hcontra
  dsimp at h3
  exact FitStatus.noConfusion h3

/-- Claim C4: `compute_fit_score_fallback` contains no exception handling at
all; on the engine's failure path (`compute_fit_score_async`'s `except`
branch) it receives the bare `resume_skills` list as `resume_json`, and
`resume_json.get("skills", [])` raises `AttributeError` — no degradation to
a minimal `(0.0, NOT_FIT, generic reason)` result exists in this function. -/
theorem C4_fallback_raises_attribute_error :
    compute_fit_score_fallback ["Go"] (ResumeArg.pylist []) =
      Except.error PyErr.attributeError := rfl

/-- Claim C6, amended: with an empty must-have set, full nice-to-have
coverage and any dependency similarity in `[-1, 1]`, the status is
`BORDERLINE` or `NOT_FIT` — never `FIT`, because the final score is at most
`0.4·1 + (0 + 0.3)·0.6 = 0.58 < 0.75`. -/
theorem C6_empty_must_full_nice_never_fit (o : Oracle) (st : CacheState)
    (job_description : String) (nice : List String)
    (resume_text : String) (resume_skills : List String)
    (_hcov : ∀ x ∈ nice, x ∈ resume_skills)
    (hcos : ∀ v1 v2 s, o.cosSim v1 v2 = Except.ok s → -1 ≤ s ∧ s ≤ 1) :
    (AIService.compute_match_score o st job_description [] nice
      resume_text resume_skills).1.status = FitStatus.BORDERLINE ∨
    (AIService.compute_match_score o st job_description [] nice
      resume_text resume_skills).1.status = FitStatus.NOT_FIT := by
  have hs := (match_semantic_mem o st job_description resume_text (-1) 1
    (by norm_num) (by norm_num) hcos).2
  exact matchScoreCore_status_empty_must _ nice resume_skills hs

/-- Witness for C6's amended claim at a concrete input: semantic score 0.75,
must-have empty, nice-to-have Docker fully covered. -/
theorem C6_empty_must_full_nice_never_fit_witness :
    (AIService.compute_match_score oracle75 noCache "jd" [] ["Docker"] "rt"
      ["Docker"]).1.status = FitStatus.BORDERLINE ∨
    (AIService.compute_match_score oracle75 noCache "jd" [] ["Docker"] "rt"
      ["Docker"]).1.status = FitStatus.NOT_FIT :=
  C6_empty_must_full_nice_never_fit oracle75 noCache "jd" ["Docker"] "rt" ["Docker"]
    (fun _ hx => hx) (by
      intro v1 v2 s h
      injection h with h2
      rw [← h2]
      constructor <;> norm_num)

/-- Counterexample to claim C6 as stated: semantic score exactly 0.75 (≥ the
claimed threshold), must-have empty, nice-to-have Docker fully covered — the
final score is `0.3 + 0.18 = 0.48 < 0.5`, so the status is `NOT_FIT`, not the
claimed `FIT`. -/
theorem C6_counterexample :
    AIService.match_semantic oracle75 noCache "jd" "rt" = 3/4 ∧
    (AIService.compute_match_score oracle75 noCache "jd" [] ["Docker"] "rt"
      ["Docker"]).1.status = FitStatus.NOT_FIT := by
  constructor
  · with_unfolding_all rfl
  · with_unfolding_all decide

/-- Claim C7, amended: `extract_skills_from_text` short-circuits to `[]` —
no cache access, no dependency call, state unchanged — whenever the stripped
text is shorter than 50 characters (which covers blank text); but
`get_embedding` short-circuits (to `None`) only for blank text: its guard
has no 50-character check. -/
theorem C7_short_input_guard (o : Oracle) (st : CacheState) (text : String)
    (hshort : (pystrip text).length < 50) :
    AIService.extract_skills_from_text o st text = (PyVal.strList [], st, 0) ∧
    (pystrip text = "" → AIService.get_embedding o st text = (PyVal.none, st, 0)) := by
  refine ⟨?_, fun hblank => ?_⟩
  · simp [AIService.extract_skills_from_text, hshort]
  · simp [AIService.get_embedding, hblank]

/-- Witness for C7's amended claim at concrete inputs: a 2-character text for
the extraction guard and a blank text for the embedding guard. -/
theorem C7_short_input_guard_witness :
    AIService.extract_skills_from_text oracleFail noCache "hi" =
      (PyVal.strList [], noCache, 0) ∧
    AIService.get_embedding oracleFail noCache " " = (PyVal.none, noCache, 0) :=
  ⟨(C7_short_input_guard oracleFail noCache "hi" (by decide)).1,
   (C7_short_input_guard oracleFail noCache " " (by decide)).2 (by decide)⟩

/-- Counterexample to claim C7 as stated: "Python" is non-blank and only 6
characters long (< 50), yet `get_embedding` does not short-circuit — it
consults the cache and makes one dependency call. -/
theorem C7_counterexample :
    (pystrip "Python").length < 50 ∧ pystrip "Python" ≠ "" ∧
    (AIService.get_embedding oracle96 noCache "Python").2.2 = 1 := by
  refine ⟨by decide, by decide, ?_⟩
  with_unfolding_all rfl

/-- Witness for C10 at a concrete input: an empty connected store, a producer
returning `None`, ttl 60. -/
theorem C10_stored_none_is_absent_witness :
    (CacheService.get_or_set ⟨true, true, 0, []⟩ "k" noneProducer (Option.some 60)).2.2 = 1 ∧
    CacheService.get
      (CacheService.get_or_set ⟨true, true, 0, []⟩ "k" noneProducer (Option.some 60)).2.1 "k"
      = PyVal.none ∧
    (CacheService.get_or_set
      (CacheService.get_or_set ⟨true, true, 0, []⟩ "k" noneProducer (Option.some 60)).2.1
      "k" noneProducer (Option.some 60)).2.2 = 1 :=
  C10_stored_none_is_absent ⟨true, true, 0, []⟩ "k" 60 rfl rfl (by decide) rfl
